import Mathlib

/-!
Shallow embedding of the player-progression and scoring engine of the
NeuroAI Quest app (src/app.py, class NeuroAIQuest), together with proofs
about the claims of its specification.

The player record is the dictionary built by NeuroAIQuest.default_player.
Integer fields are modelled as Nat (they are non-negative throughout the
program: scores and XP awards are non-negative, levels start at 1).
-/

set_option autoImplicit false

/-- Embedding of the player dictionary created by default_player in
src/app.py: keys name, xp, level, streak, last_play, high_scores,
badges, world_unlocks, total_sessions. -/
structure Player where
  name : String
  xp : Nat
  level : Nat
  streak : Nat
  last_play : String
  high_scores : List Nat
  badges : List String
  world_unlocks : List Nat
  total_sessions : Nat
deriving Repr, DecidableEq

/-- Embedding of NeuroAIQuest.default_player (src/app.py lines 36-42). -/
def default_player : Player :=
  { name := "AI Apprentice"
    xp := 0, level := 1, streak := 0, last_play := ""
    high_scores := [0, 0, 0, 0], badges := [], world_unlocks := [0, 0, 0, 0]
    total_sessions := 0 }

/-- Embedding of NeuroAIQuest.award_badge (src/app.py lines 109-115):
if the badge is not yet held, append it and add 50 XP; otherwise the
player is unchanged. -/
def award_badge (p : Player) (badge : String) : Player :=
  if badge ∈ p.badges then p
  else { p with badges := p.badges ++ [badge], xp := p.xp + 50 }

/-- Fuel-indexed unrolling of the while loop of gain_xp
(src/app.py lines 127-128): while xp >= level * 100, level += 1.
Each iteration requires level * 100 <= xp and raises level by one, so the
loop runs at most xp / 100 + 1 times; levelLoop supplies fuel xp + 1,
which is proved sufficient in levelLoopAux_closed. -/
def levelLoopAux : Nat → Nat → Nat → Nat
  | 0, _, level => level
  | fuel + 1, xp, level =>
      if level * 100 ≤ xp then levelLoopAux fuel xp (level + 1) else level

/-- The leveling while loop of gain_xp, with enough fuel for any input. -/
def levelLoop (xp level : Nat) : Nat :=
  levelLoopAux (xp + 1) xp level

lemma levelLoopAux_closed :
    ∀ (fuel xp level : Nat), xp / 100 + 1 - level ≤ fuel →
      levelLoopAux fuel xp level =
        if level * 100 ≤ xp then xp / 100 + 1 else level := by
  intro fuel
  induction fuel with
  | zero =>
      intro xp level h
      have hq : xp / 100 * 100 ≤ xp := Nat.div_mul_le_self xp 100
      have hne : ¬ level * 100 ≤ xp := by
        intro hle
        have : level ≤ xp / 100 :=
          (Nat.le_div_iff_mul_le (by norm_num)).mpr hle
        omega
      simp [levelLoopAux, hne]
  | succ fuel ih =>
      intro xp level h
      by_cases hc : level * 100 ≤ xp
      · have hlev : level ≤ xp / 100 :=
          (Nat.le_div_iff_mul_le (by norm_num)).mpr hc
        rw [levelLoopAux, if_pos hc, ih xp (level + 1) (by omega), if_pos hc]
        by_cases hc2 : (level + 1) * 100 ≤ xp
        · rw [if_pos hc2]
        · have hlt : xp / 100 < level + 1 :=
            (Nat.div_lt_iff_lt_mul (by norm_num)).mpr (by omega)
          rw [if_neg hc2]
          omega
      · rw [levelLoopAux, if_neg hc, if_neg hc]

/-- Closed form of the leveling loop: if the loop body runs at all, the
final level is xp / 100 + 1; otherwise the level is unchanged. -/
lemma levelLoop_closed (xp level : Nat) :
    levelLoop xp level = if level * 100 ≤ xp then xp / 100 + 1 else level := by
  have hq : xp / 100 ≤ xp := Nat.div_le_self xp 100
  exact levelLoopAux_closed (xp + 1) xp level (by omega)

/-- The fuel encoding satisfies the defining equation of the source's
while loop: one test of the guard, then either one increment and a
recursive continuation or exit. -/
lemma levelLoop_spec (xp level : Nat) :
    levelLoop xp level =
      if level * 100 ≤ xp then levelLoop xp (level + 1) else level := by
  rw [levelLoop_closed, levelLoop_closed]
  by_cases hc : level * 100 ≤ xp
  · have hlev : level ≤ xp / 100 :=
      (Nat.le_div_iff_mul_le (by norm_num)).mpr hc
    by_cases hc2 : (level + 1) * 100 ≤ xp
    · simp [hc, hc2]
    · have hlt : xp / 100 < level + 1 :=
        (Nat.div_lt_iff_lt_mul (by norm_num)).mpr (by omega)
      simp [hc, hc2]
      omega
  · simp [hc]

/-- Embedding of NeuroAIQuest.gain_xp (src/app.py lines 117-136):
bonus = streak * 10; total = pts + bonus; xp += total; if a world index
is given, high_scores[world] = max(previous, pts); then the leveling
while loop runs, and if the level rose and the new level is a multiple
of 5 the badge "Level N Master" is awarded (which itself adds 50 XP via
award_badge). -/
def gain_xp (p : Player) (pts : Nat) (world : Option Nat) : Player :=
  let bonus := p.streak * 10
  let total := pts + bonus
  let p1 : Player := { p with xp := p.xp + total }
  let p2 : Player :=
    match world with
    | some w =>
        { p1 with high_scores :=
            p1.high_scores.set w (max (p1.high_scores.getD w 0) pts) }
    | none => p1
  let oldLevel := p2.level
  let newLevel := levelLoop p2.xp p2.level
  let p3 : Player := { p2 with level := newLevel }
  if oldLevel < newLevel ∧ newLevel % 5 = 0 then
    award_badge p3 ("Level " ++ toString newLevel ++ " Master")
  else p3

/-! Calendar dates: the pieces of datetime.date used by update_streak.
A date is a (year, month, day) triple; toOrdinal is Python's
date.toordinal (proleptic Gregorian day number, 0001-01-01 = 1), so the
Python expression (d1 - d2).days equals toOrdinal d1 - toOrdinal d2 in
the integers.  fromisoformat models the strict YYYY-MM-DD form of
datetime.date.fromisoformat (the only form this program ever writes,
via date.isoformat). -/

structure Date where
  year : Nat
  month : Nat
  day : Nat
deriving Repr, DecidableEq

/-- Gregorian leap-year rule. -/
def isLeapYear (y : Nat) : Bool :=
  y % 4 == 0 && (y % 100 != 0 || y % 400 == 0)

/-- Number of days of month m in year y (months are 1-based). -/
def daysInMonth (y m : Nat) : Nat :=
  if m = 2 then (if isLeapYear y then 29 else 28)
  else if m = 4 ∨ m = 6 ∨ m = 9 ∨ m = 11 then 30
  else 31

/-- Days in year y strictly before month m. -/
def daysBeforeMonth (y m : Nat) : Nat :=
  (List.range (m - 1)).foldl (fun acc i => acc + daysInMonth y (i + 1)) 0

/-- Python date.toordinal: day number in the proleptic Gregorian
calendar, with 0001-01-01 mapped to 1. -/
def toOrdinal (d : Date) : Nat :=
  let y := d.year - 1
  365 * y + y / 4 - y / 100 + y / 400 + daysBeforeMonth d.year d.month + d.day

/-- Zero-padded decimal rendering of width w. -/
def padNum (w n : Nat) : String :=
  let s := toString n
  String.mk (List.replicate (w - s.length) '0') ++ s

/-- Python date.isoformat: the YYYY-MM-DD string of a date. -/
def Date.isoformat (d : Date) : String :=
  padNum 4 d.year ++ "-" ++ padNum 2 d.month ++ "-" ++ padNum 2 d.day

/-- Value of a fixed-width digit string. -/
def digitsToNat (cs : List Char) : Option Nat :=
  if cs.all Char.isDigit then
    some (cs.foldl (fun a c => a * 10 + (c.toNat - 48)) 0)
  else none

/-- Python date.fromisoformat, strict YYYY-MM-DD form: four digits,
dash, two digits, dash, two digits, with the month in 1..12, the day in
1..daysInMonth and the year in 1..9999; any other string fails (in the
program the failure is the except branch of update_streak). -/
def fromisoformat (s : String) : Option Date :=
  match s.data with
  | [y1, y2, y3, y4, '-', m1, m2, '-', d1, d2] =>
      match digitsToNat [y1, y2, y3, y4], digitsToNat [m1, m2],
            digitsToNat [d1, d2] with
      | some y, some m, some d =>
          if 1 ≤ y ∧ y ≤ 9999 ∧ 1 ≤ m ∧ m ≤ 12 ∧ 1 ≤ d ∧ d ≤ daysInMonth y m
          then some ⟨y, m, d⟩ else none
      | _, _, _ => none
  | _ => none

/-- Embedding of NeuroAIQuest.update_streak (src/app.py lines 87-107),
with today passed explicitly (the code reads datetime.date.today()).
If last_play already equals today's ISO string, return unchanged.
Otherwise parse last_play: on success, streak += 1 when the day gap is
exactly 1 and streak = 1 for any other gap; on parse failure (the except
branch) streak = 1.  Then last_play = today and total_sessions += 1. -/
def update_streak (p : Player) (today : Date) : Player :=
  let todayStr := today.isoformat
  if p.last_play = todayStr then p
  else
    let newStreak :=
      match fromisoformat p.last_play with
      | some lastDate =>
          if (toOrdinal today : ℤ) - (toOrdinal lastDate : ℤ) = 1
          then p.streak + 1 else 1
      | none => 1
    { p with streak := newStreak, last_play := todayStr,
             total_sessions := p.total_sessions + 1 }

/-! Text primitives used by the scorers: Python lower(), the substring
operator needle in haystack, whitespace split() and len(). -/

/-- Python str.lower restricted to the ASCII texts the scorers use. -/
def toLowerStr (s : String) : String :=
  String.mk (s.data.map Char.toLower)

/-- Whether the second list is an initial segment of the first. -/
def startsWithChars : List Char → List Char → Bool
  | _, [] => true
  | [], _ :: _ => false
  | h :: t, n :: ns => h == n && startsWithChars t ns

/-- Whether needle occurs as a contiguous substring of hay (the Python
expression needle in hay on strings). -/
def containsSub (needle : List Char) : List Char → Bool
  | [] => needle.isEmpty
  | h :: t => startsWithChars (h :: t) needle || containsSub needle t

/-- Python needle in hay for strings. -/
def strIn (needle hay : String) : Bool :=
  containsSub needle.data hay.data

/-- Accumulating splitter over characters: pieces are maximal runs of
non-whitespace characters; acc holds the current piece reversed. -/
def splitWsAux : List Char → List Char → List String
  | [], acc => if acc.isEmpty then [] else [String.mk acc.reverse]
  | c :: cs, acc =>
      if c.isWhitespace then
        if acc.isEmpty then splitWsAux cs []
        else String.mk acc.reverse :: splitWsAux cs []
      else splitWsAux cs (c :: acc)

/-- Python str.split with no argument: split on whitespace runs,
dropping empty pieces. -/
def splitWs (s : String) : List String :=
  splitWsAux s.data []

/-- Points for one perspective response, the scoring block of
NeuroAIQuest.view_switch_next (src/app.py lines 262-273): a response
shorter than 10 characters gets 5 points; otherwise base 10, +5 when
the word count exceeds 15, +5 when the lowered text contains any of
because / therefore / however, +5 more when it contains any of
cost / benefit / risk / opportunity, capped at maxPerView (25 in
view_switch_init). -/
def view_switch_points (maxPerView : Nat) (response : String) : Nat :=
  if response.length < 10 then 5
  else
    let low := toLowerStr response
    let p := 10
    let p := if (splitWs response).length > 15 then p + 5 else p
    let p := if ["because", "therefore", "however"].any
                  (fun w => strIn w low) then p + 5 else p
    let p := if ["cost", "benefit", "risk", "opportunity"].any
                  (fun w => strIn w low) then p + 5 else p
    min p maxPerView

/-- Scoring of one step in NeuroAIQuest.step_logic_next
(src/app.py lines 325-341): unconditional base 10, +5 for every
solution key found in the lowered text (each found key also raises the
session key_hits counter, returned as the second component), +3 when a
sequencing connector occurs. -/
def step_points (keys : List String) (response : String) : Nat × Nat :=
  let low := toLowerStr response
  let hits := (keys.filter (fun k => strIn k low)).length
  let p := 10 + 5 * hits
  let p := if ["then", "next", "after", "first", "second"].any
                (fun w => strIn w low) then p + 3 else p
  (p, hits)

/-- Embedding of NeuroAIQuest.step_logic_end (src/app.py lines 351-354)
applied to the scores accumulated by step_logic_next over the submitted
steps: base_score is the sum of the per-step points, key_hits the sum of
the per-step key counts, key_bonus = key_hits / len(keys) * 50 (0 when
there are no keys), and the final score min(150, base + bonus), computed
in exact rational arithmetic. -/
def step_logic_final (keys : List String) (responses : List String) : ℚ :=
  let scored := responses.map (step_points keys)
  let base : Nat := (scored.map Prod.fst).sum
  let hits : Nat := (scored.map Prod.snd).sum
  let keyBonus : ℚ :=
    if keys.length = 0 then 0 else (hits : ℚ) / (keys.length : ℚ) * 50
  min 150 ((base : ℚ) + keyBonus)

/-- Keyword set of one thinking mode, from the elif chain of
NeuroAIQuest.meta_cognition_next (src/app.py lines 515-522). -/
def meta_mode_keywords (mode : String) : List String :=
  if mode = "white_room" then ["abstract", "essence", "core"]
  else if mode = "recursive" then ["break down", "sub-problem", "step"]
  else if mode = "hypothesis_driven" then ["test", "validate", "assume"]
  else if mode = "multi_modal" then ["connect", "cross", "domain"]
  else []

/-- Points for one reflection in NeuroAIQuest.meta_cognition_next
(src/app.py lines 505-527): 15 when the text is shorter than 15
characters, otherwise 25 plus a 10 bonus when the mode's keyword set
matches the lowered text. -/
def meta_points (mode : String) (response : String) : Nat :=
  if response.length < 15 then 15
  else
    let low := toLowerStr response
    if (meta_mode_keywords mode).any (fun w => strIn w low) then 25 + 10
    else 25

/-- Session total of meta-cognition: the sum of the per-mode points over
the selected (mode, response) pairs, as accumulated in total_score by
meta_cognition_next. -/
def meta_session_total (rounds : List (String × String)) : Nat :=
  (rounds.map (fun r => meta_points r.fst r.snd)).sum

/-- Embedding of NeuroAIQuest.evaluate_prompt_advanced
(src/app.py lines 372-412): fixed point values per detected keyword
category, summed and capped at 150. -/
def evaluate_prompt_advanced (prompt : String) : Nat :=
  let low := toLowerStr prompt
  let sys := if ["step", "first", "then", "next", "finally",
                 "chain of thought"].any (fun w => strIn w low) then 30 else 0
  let role := if ["as a", "act as", "you are", "expert",
                  "specialist"].any (fun w => strIn w low) then 30 else 0
  let fmt := if ["table", "format", "json", "outline", "bullet",
                 "structure"].any (fun w => strIn w low) then 30 else 0
  let constr := if ["constraint", "limit", "within",
                    "boundary"].any (fun w => strIn w low) then 15 else 0
  let abst := if ["fundamental", "core principle", "abstract",
                  "essence"].any (fun w => strIn w low) then 15 else 0
  let creat :=
    (if (splitWs prompt).length > 30 then 10 else 0) +
    (if ["metaphor", "analogy", "unconventional", "creative",
         "innovative"].any (fun w => strIn w low) then 20 else 0)
  min 150 (sys + role + fmt + constr + abst + creat)

/-- Embedding of NeuroAIQuest.ai_play_end (src/app.py lines 428-475):
a prompt shorter than 10 characters goes through gain_xp(20, world);
otherwise the prompt is scored by evaluate_prompt_advanced, the score is
fed to gain_xp and the score-threshold badges are awarded. -/
def ai_play_end (p : Player) (world : Option Nat) (prompt : String) : Player :=
  if prompt.length < 10 then gain_xp p 20 world
  else
    let total := evaluate_prompt_advanced prompt
    let p1 := gain_xp p total world
    if total > 130 then award_badge p1 "Prompt God"
    else if total > 110 then award_badge p1 "Prompt Architect"
    else if total > 85 then award_badge p1 "Prompt Engineer"
    else p1

/-- Embedding of NeuroAIQuest.advance_world_level
(src/app.py lines 570-588) without its logging: on success the world's
unlock counter is incremented, otherwise nothing changes.  This function
is never called anywhere in src/app.py. -/
def advance_world_level (p : Player) (world : Nat) (success : Bool) : Player :=
  if success then
    { p with world_unlocks :=
        p.world_unlocks.set world (p.world_unlocks.getD world 0 + 1) }
  else p

/-- Embedding of NeuroAIQuest.memory_boost_end (src/app.py lines
217-233) on a finished session with the given raw score, trial count and
final N: the percentage score is score / (trials * 5) * 100, the success
flag compares it to 70 and is then dropped (advance_world_level is never
invoked), gain_xp(int(percent * 2), world 0) runs, and the percentage
thresholds 90 / 80 / 70 award a memory badge. -/
def memory_boost_end (p : Player) (score trials n : Nat) : Player :=
  let pct : ℚ := (score : ℚ) / ((trials : ℚ) * 5) * 100
  let p1 := gain_xp p (Int.toNat ⌊pct * 2⌋) (some 0)
  if pct > 90 then award_badge p1 ("Memory N" ++ toString n ++ " Grandmaster")
  else if pct > 80 then award_badge p1 ("Memory N" ++ toString n ++ " Master")
  else if pct > 70 then award_badge p1 ("Memory N" ++ toString n ++ " Adept")
  else p1

/-! Helper lemmas: list update, frame properties of award_badge and
gain_xp, and the loop bound of levelLoop. -/

lemma getD_set_self (l : List Nat) (i a : Nat) (h : i < l.length) :
    (l.set i a).getD i 0 = a := by
  simp [List.getD_eq_getElem?_getD, List.getElem?_set, h]

lemma getD_set_other (l : List Nat) (i j a : Nat) (h : i ≠ j) :
    (l.set i a).getD j 0 = l.getD j 0 := by
  simp [List.getD_eq_getElem?_getD, List.getElem?_set, h]

lemma award_badge_world_unlocks (p : Player) (b : String) :
    (award_badge p b).world_unlocks = p.world_unlocks := by
  unfold award_badge; split <;> rfl

lemma award_badge_level (p : Player) (b : String) :
    (award_badge p b).level = p.level := by
  unfold award_badge; split <;> rfl

lemma gain_xp_world_unlocks (p : Player) (pts : Nat) (w : Option Nat) :
    (gain_xp p pts w).world_unlocks = p.world_unlocks := by
  unfold gain_xp
  cases w <;> dsimp only <;> split <;>
    first | rw [award_badge_world_unlocks] | rfl

lemma gain_xp_streak (p : Player) (pts : Nat) (w : Option Nat) :
    (gain_xp p pts w).streak = p.streak := by
  unfold gain_xp award_badge
  cases w <;> dsimp only <;> split <;> (try split) <;> rfl

lemma gain_xp_xp_or (p : Player) (pts : Nat) (w : Option Nat) :
    (gain_xp p pts w).xp = p.xp + (pts + p.streak * 10) ∨
    (gain_xp p pts w).xp = p.xp + (pts + p.streak * 10) + 50 := by
  unfold gain_xp award_badge
  cases w <;> dsimp only <;> split <;> (try split) <;> simp

lemma gain_xp_level_eq (p : Player) (pts : Nat) (w : Option Nat) :
    (gain_xp p pts w).level = levelLoop (p.xp + (pts + p.streak * 10)) p.level := by
  unfold gain_xp award_badge
  cases w <;> dsimp only <;> split <;> (try split) <;> rfl

lemma gain_xp_high_scores_some (p : Player) (pts w : Nat) :
    (gain_xp p pts (some w)).high_scores =
      p.high_scores.set w (max (p.high_scores.getD w 0) pts) := by
  unfold gain_xp award_badge
  dsimp only; split <;> (try split) <;> rfl

lemma gain_xp_high_scores_none (p : Player) (pts : Nat) :
    (gain_xp p pts none).high_scores = p.high_scores := by
  unfold gain_xp award_badge
  dsimp only; split <;> (try split) <;> rfl

lemma levelLoop_ge (xp level : Nat) : level ≤ levelLoop xp level := by
  rw [levelLoop_closed]
  split
  · next hc =>
      have : level ≤ xp / 100 := (Nat.le_div_iff_mul_le (by norm_num)).mpr hc
      omega
  · exact le_rfl

/-! Concrete player records used in scenario and counterexample
theorems. -/

/-- A fresh player who has accumulated 350 XP at level 1. -/
def playerA : Player := { default_player with xp := 350 }

/-- The specification scenario record with streak 3. -/
def playerStreak3 : Player := { default_player with streak := 3 }

/-- The specification scenario record with xp 95, level 1, streak 0. -/
def playerXp95 : Player := { default_player with xp := 95 }

/-- A player whose last play was 2024-01-01, on a 4-day streak. -/
def playerJan1 : Player :=
  { default_player with last_play := "2024-01-01", streak := 4 }

/-- C1: the claim that gain_xp always adds exactly basePoints +
streak * 10 to record.xp fails: starting from 350 XP at level 1 with
streak 0, gain_xp(50) raises the level to 5 and the Level 5 Master badge
adds a further 50 XP, so xp ends at 450, not at 400. -/
theorem C1_counterexample :
    (gain_xp playerA 50 none).xp = 450
    ∧ playerA.xp + (50 + playerA.streak * 10) = 400
    ∧ (gain_xp playerA 50 none).xp ≠ playerA.xp + (50 + playerA.streak * 10) := by
  decide

/-- C1 (amended): gain_xp credits basePoints + streak * 10 to
record.xp, except that when the leveling check awards a new Level N
Master badge a further 50 XP is added; with a world index, the world's
high score becomes max(previous, basePoints) - the streak bonus is
excluded - and no high score ever decreases; for the record with
streak 3, gainXp(20) credits 20 + 30 = 50. -/
theorem C1_gain_xp_amended :
    ∀ (p : Player) (pts i : Nat), i < p.high_scores.length →
      ((gain_xp p pts (some i)).xp = p.xp + (pts + p.streak * 10) ∨
        (gain_xp p pts (some i)).xp = p.xp + (pts + p.streak * 10) + 50)
      ∧ (gain_xp p pts (some i)).high_scores.getD i 0
          = max (p.high_scores.getD i 0) pts
      ∧ (∀ j, p.high_scores.getD j 0
            ≤ (gain_xp p pts (some i)).high_scores.getD j 0)
      ∧ (gain_xp playerStreak3 20 none).xp
          = playerStreak3.xp + (20 + playerStreak3.streak * 10) := by
  intro p pts i h
  refine ⟨gain_xp_xp_or p pts (some i), ?_, ?_, by decide⟩
  · rw [gain_xp_high_scores_some, getD_set_self _ _ _ h]
  · intro j
    rw [gain_xp_high_scores_some]
    by_cases hji : i = j
    · subst hji
      rw [getD_set_self _ _ _ h]
      exact le_max_left _ _
    · rw [getD_set_other _ _ _ _ hji]

/-- C1 witness: the amended theorem applied to a fresh player gaining
10 points in world 0. -/
theorem C1_witness :
    (gain_xp default_player 10 (some 0)).high_scores.getD 0 0
      = max (default_player.high_scores.getD 0 0) 10 :=
  (C1_gain_xp_amended default_player 10 0 (by decide)).2.1

/-- C9: award_badge is idempotent - a held badge changes nothing, a new
badge is appended with exactly 50 XP and no leveling, and badge lists
stay duplicate-free. -/
theorem C9_award_badge :
    ∀ (p : Player) (b : String),
      award_badge (award_badge p b) b = award_badge p b
      ∧ (b ∈ p.badges → award_badge p b = p)
      ∧ (b ∉ p.badges →
          (award_badge p b).badges = p.badges ++ [b]
          ∧ (award_badge p b).xp = p.xp + 50
          ∧ (award_badge p b).level = p.level)
      ∧ (p.badges.Nodup → (award_badge p b).badges.Nodup) := by
  intro p b
  by_cases hb : b ∈ p.badges
  · refine ⟨?_, fun _ => ?_, fun hnb => absurd hb hnb, fun hn => ?_⟩ <;>
      simp [award_badge, hb]
    exact hn
  · refine ⟨?_, fun hmem => absurd hmem hb, fun _ => ?_, fun hn => ?_⟩
    · simp [award_badge, hb]
    · simp [award_badge, hb]
    · simp [award_badge, hb, List.nodup_append, hn]

/-- C9 witness: awarding a badge the fresh player does not hold adds it
and exactly 50 XP. -/
theorem C9_witness :
    (award_badge default_player "Logic Legend").badges
        = default_player.badges ++ ["Logic Legend"]
    ∧ (award_badge default_player "Logic Legend").xp = default_player.xp + 50
    ∧ (award_badge default_player "Logic Legend").level = default_player.level :=
  (C9_award_badge default_player "Logic Legend").2.2.1 (by decide)

/-- C10: update_streak only touches streak, last_play and
total_sessions; xp, level, high_scores, badges, world_unlocks and name
are unchanged in every branch, so no XP is granted. -/
theorem C10_update_streak_frame :
    ∀ (p : Player) (today : Date),
      (update_streak p today).xp = p.xp
      ∧ (update_streak p today).level = p.level
      ∧ (update_streak p today).high_scores = p.high_scores
      ∧ (update_streak p today).badges = p.badges
      ∧ (update_streak p today).world_unlocks = p.world_unlocks
      ∧ (update_streak p today).name = p.name := by
  intro p today
  refine ⟨?_, ?_, ?_, ?_, ?_, ?_⟩ <;>
    (unfold update_streak
     by_cases h : p.last_play = today.isoformat <;> simp [h])

/-- One gain_xp call never lowers the level. -/
lemma gain_xp_level_mono (p : Player) (pts : Nat) (w : Option Nat) :
    p.level ≤ (gain_xp p pts w).level := by
  rw [gain_xp_level_eq]; exact levelLoop_ge _ _

/-- C2: the level after gain_xp is the result of the while loop on the
credited XP: it never decreases, the final level L satisfies
creditedXp < L * 100, every level passed through satisfied the loop
guard (so one call can level up several times), level is monotone over
any sequence of gain_xp calls, and the scenario record with xp 95 ends
at xp 105, level 2, high score 10 in world 0. -/
theorem C2_leveling :
    ∀ (p : Player) (pts : Nat) (w : Option Nat),
      p.level ≤ (gain_xp p pts w).level
      ∧ p.xp + (pts + p.streak * 10) < (gain_xp p pts w).level * 100
      ∧ (∀ L, p.level ≤ L → L < (gain_xp p pts w).level →
            L * 100 ≤ p.xp + (pts + p.streak * 10))
      ∧ (∀ calls : List (Nat × Option Nat),
            p.level ≤ (calls.foldl (fun q c => gain_xp q c.1 c.2) p).level)
      ∧ (gain_xp playerXp95 10 (some 0)).xp = 105
      ∧ (gain_xp playerXp95 10 (some 0)).level = 2
      ∧ (gain_xp playerXp95 10 (some 0)).high_scores.getD 0 0 = 10 := by
  intro p pts w
  have hL := gain_xp_level_eq p pts w
  refine ⟨?_, ?_, ?_, ?_, by decide, by decide, by decide⟩
  · rw [hL]; exact levelLoop_ge _ _
  · rw [hL, levelLoop_closed]
    split
    · omega
    · omega
  · intro L hL1 hL2
    rw [hL, levelLoop_closed] at hL2
    by_cases hc : p.level * 100 ≤ p.xp + (pts + p.streak * 10)
    · rw [if_pos hc] at hL2
      omega
    · rw [if_neg hc] at hL2
      omega
  · intro calls
    clear hL
    induction calls generalizing p with
    | nil => simp
    | cons c cs ih =>
        simp only [List.foldl_cons]
        exact le_trans (gain_xp_level_mono p c.1 c.2) (ih _)

/-- C2 witness: the loop-guard clause of the leveling theorem at the
scenario record, level 1, showing the guard held before the level-up
to 2. -/
theorem C2_witness :
    1 * 100 ≤ playerXp95.xp + (10 + playerXp95.streak * 10) :=
  (C2_leveling playerXp95 10 (some 0)).2.2.1 1 (by decide) (by decide)

/-- The skip branch of update_streak: when last_play is already today's
ISO string the record is returned unchanged. -/
lemma update_streak_skip (p : Player) (today : Date)
    (h : p.last_play = today.isoformat) : update_streak p today = p := by
  unfold update_streak; rw [if_pos h]

/-- C3: update_streak skips when last_play equals today, is idempotent
for a fixed today, and otherwise sets last_play to today, increments
total_sessions, increments streak exactly when the parsed last_play is
one day before today, and resets streak to 1 for any other gap or an
unparseable (for example empty) last_play. -/
theorem C3_update_streak :
    ∀ (p : Player) (today : Date),
      (p.last_play = today.isoformat → update_streak p today = p)
      ∧ update_streak (update_streak p today) today = update_streak p today
      ∧ (p.last_play ≠ today.isoformat →
          (update_streak p today).last_play = today.isoformat
          ∧ (update_streak p today).total_sessions = p.total_sessions + 1
          ∧ (∀ d, fromisoformat p.last_play = some d →
               ((toOrdinal today : ℤ) - (toOrdinal d : ℤ) = 1 →
                  (update_streak p today).streak = p.streak + 1)
               ∧ ((toOrdinal today : ℤ) - (toOrdinal d : ℤ) ≠ 1 →
                  (update_streak p today).streak = 1))
          ∧ (fromisoformat p.last_play = none →
               (update_streak p today).streak = 1)) := by
  intro p today
  by_cases h : p.last_play = today.isoformat
  · refine ⟨fun _ => update_streak_skip p today h, ?_,
      fun hne => absurd h hne⟩
    rw [update_streak_skip p today h]
    exact update_streak_skip p today h
  · have hlp : (update_streak p today).last_play = today.isoformat := by
      unfold update_streak; rw [if_neg h]
    refine ⟨fun habs => absurd habs h, update_streak_skip _ _ hlp,
      fun _ => ⟨hlp, ?_, ?_, ?_⟩⟩
    · unfold update_streak; rw [if_neg h]
    · intro d hd
      constructor
      · intro hone
        unfold update_streak
        rw [if_neg h]
        simp only [hd]
        rw [if_pos hone]
      · intro hnot
        unfold update_streak
        rw [if_neg h]
        simp only [hd]
        rw [if_neg hnot]
    · intro hnone
      unfold update_streak
      rw [if_neg h]
      simp only [hnone]

/-- C3 witness: a record last played 2024-01-01 updated on 2024-01-02
(one day later) has its streak incremented from 4 to 5. -/
theorem C3_witness :
    (update_streak playerJan1 ⟨2024, 1, 2⟩).streak = playerJan1.streak + 1 :=
  (((C3_update_streak playerJan1 ⟨2024, 1, 2⟩).2.2 (by decide)).2.2.1
    ⟨2024, 1, 1⟩ (by decide)).1 (by decide)

/-- C4: the claim that a short perspective response is rejected with no
score fails - the 9-character response scores 5 points - and the keyword
bonus is two separate +5 bonuses (connectives and cost words), so a text
holding one word of each set scores 20 instead of the claimed 15, and a
long text can reach 25, outside the claimed 0-20 range. -/
theorem C4_counterexample :
    ("too short").length < 10
    ∧ view_switch_points 25 "too short" = 5
    ∧ (5 : ℕ) ≠ 0
    ∧ view_switch_points 25 "it is so because cost" = 20
    ∧ view_switch_points 25 "one two three four five six seven eight nine ten eleven twelve thirteen fourteen fifteen sixteen because cost" = 25 := by
  decide

/-- Shape of the perspective scoring on texts of length at least 10. -/
lemma view_switch_points_long (r : String) (h : ¬ r.length < 10) :
    view_switch_points 25 r =
      min (10 + (if 15 < (splitWs r).length then 5 else 0)
            + (if (["because", "therefore", "however"].any
                  fun w => strIn w (toLowerStr r)) then 5 else 0)
            + (if (["cost", "benefit", "risk", "opportunity"].any
                  fun w => strIn w (toLowerStr r)) then 5 else 0)) 25 := by
  unfold view_switch_points
  rw [if_neg h]
  dsimp only
  split_ifs <;> omega

/-- C4 (amended): a response shorter than 10 characters scores a flat 5
points (logged as too brief) rather than being rejected; otherwise the
score is 10, +5 for more than 15 words, +5 for a connective keyword
(because, therefore, however), +5 more for an evaluative keyword (cost,
benefit, risk, opportunity), capped at the per-view maximum 25, so every
response scores between 5 and 25. -/
theorem C4_view_switch_amended :
    ∀ (r : String),
      (r.length < 10 → view_switch_points 25 r = 5)
      ∧ (10 ≤ r.length →
          view_switch_points 25 r =
            min (10 + (if 15 < (splitWs r).length then 5 else 0)
                  + (if (["because", "therefore", "however"].any
                        fun w => strIn w (toLowerStr r)) then 5 else 0)
                  + (if (["cost", "benefit", "risk", "opportunity"].any
                        fun w => strIn w (toLowerStr r)) then 5 else 0)) 25)
      ∧ 5 ≤ view_switch_points 25 r
      ∧ view_switch_points 25 r ≤ 25 := by
  intro r
  by_cases h : r.length < 10
  · have h5 : view_switch_points 25 r = 5 := by
      unfold view_switch_points; rw [if_pos h]
    exact ⟨fun _ => h5, fun h10 => absurd h10 (by omega),
      by rw [h5], by rw [h5]; norm_num⟩
  · have heq := view_switch_points_long r h
    refine ⟨fun hlt => absurd hlt h, fun _ => heq, ?_, ?_⟩
    · rw [heq]; split_ifs <;> omega
    · rw [heq]; split_ifs <;> omega

/-- C4 witness: the amended theorem applied to the 2-character
response. -/
theorem C4_witness :
    ("hi").length < 10 ∧ view_switch_points 25 "hi" = 5 :=
  ⟨by decide, (C4_view_switch_amended "hi").1 (by decide)⟩

/-- C5: the claim that a short prompt submission leaves the record
untouched fails: on the fresh player, the 2-character prompt triggers
gain_xp(20, world 3), so xp becomes 20 and high_scores[3] becomes 20. -/
theorem C5_counterexample :
    ("hi").length < 10
    ∧ (ai_play_end default_player (some 3) "hi").xp = 20
    ∧ (ai_play_end default_player (some 3) "hi").high_scores.getD 3 0 = 20
    ∧ ai_play_end default_player (some 3) "hi" ≠ default_player := by
  decide

/-- C5 (amended): a prompt shorter than 10 characters skips the
advanced evaluation and instead runs the fallback gain_xp(20, world), so
xp grows by at least 20. -/
theorem C5_short_prompt_amended :
    ∀ (p : Player) (w : Option Nat) (prompt : String),
      prompt.length < 10 →
        ai_play_end p w prompt = gain_xp p 20 w
        ∧ p.xp + 20 ≤ (ai_play_end p w prompt).xp := by
  intro p w prompt h
  have he : ai_play_end p w prompt = gain_xp p 20 w := by
    unfold ai_play_end; rw [if_pos h]
  refine ⟨he, ?_⟩
  rw [he]
  rcases gain_xp_xp_or p 20 w with h1 | h1 <;> omega

/-- C5 witness: the amended theorem applied to the fresh player and the
prompt hi. -/
theorem C5_witness :
    ai_play_end default_player (some 3) "hi"
      = gain_xp default_player 20 (some 3) :=
  (C5_short_prompt_amended default_player (some 3) "hi" (by decide)).1

/-- C6: the claim fails in two ways.  The step text ab (2 characters,
at most 5) still scores 10, where the claim predicts 0; and submitting
the same keyword in two steps counts it twice in key_hits, giving a
session with two identical steps a key bonus of 2/5*50 = 20 and a final
score of 56 where the distinct-count rule of the claim predicts 46. -/
theorem C6_counterexample :
    step_logic_final ["test", "label", "swap", "on", "off", "wait"] ["ab"] = 10
    ∧ (10 : ℚ) ≠ 0
    ∧ step_logic_final ["goat first", "back", "wolf", "cabbage", "return"]
        ["goat first", "goat first"] = 56
    ∧ (56 : ℚ) ≠ 46 := by
  refine ⟨?_, by norm_num, ?_, by norm_num⟩
  · have h1 : ["ab"].map (step_points ["test", "label", "swap", "on", "off", "wait"])
        = [(10, 0)] := by decide
    simp only [step_logic_final, h1]
    norm_num
  · have h1 : ["goat first", "goat first"].map
        (step_points ["goat first", "back", "wolf", "cabbage", "return"])
        = [(18, 1), (18, 1)] := by decide
    simp only [step_logic_final, h1]
    norm_num

/-- C6 (amended): each step scores an unconditional base 10 (no length
condition), +5 per expected keyword found in that step by
case-insensitive substring match, and +3 for a sequencing word; key hits
count keyword occurrences per step, so a keyword found in several steps
counts once for each; keyBonus = totalKeyHits / totalKeywords * 50 and
the final score is min(150, baseScore + keyBonus). -/
theorem C6_step_logic_amended :
    ∀ (keys : List String) (rs : List String), keys ≠ [] →
      step_logic_final keys rs =
        min 150 ((((rs.map fun r => (step_points keys r).1).sum : Nat) : ℚ)
          + (((rs.map fun r => (step_points keys r).2).sum : Nat) : ℚ)
              / (keys.length : ℚ) * 50)
      ∧ (∀ r, 10 ≤ (step_points keys r).1
           ∧ (step_points keys r).2
               = (keys.filter fun k => strIn k (toLowerStr r)).length
           ∧ ((step_points keys r).1 = 10 + 5 * (step_points keys r).2 ∨
              (step_points keys r).1 = 10 + 5 * (step_points keys r).2 + 3))
      ∧ step_logic_final keys rs ≤ 150 := by
  intro keys rs hk
  have hlen : keys.length ≠ 0 := by
    simpa [List.length_eq_zero] using hk
  refine ⟨?_, ?_, ?_⟩
  · unfold step_logic_final
    dsimp only
    rw [if_neg hlen, List.map_map, List.map_map]
    rfl
  · intro r
    unfold step_points
    dsimp only
    refine ⟨?_, ?_, ?_⟩
    · split_ifs <;> omega
    · rfl
    · split_ifs
      · right; rfl
      · left; rfl
  · unfold step_logic_final
    dsimp only
    exact min_le_left _ _

/-- C6 witness: the amended theorem applied to the first riddle's key
set and a one-step session. -/
theorem C6_witness :
    step_logic_final ["test", "label", "swap", "on", "off", "wait"] ["ab"]
      ≤ 150 :=
  (C6_step_logic_amended ["test", "label", "swap", "on", "off", "wait"]
    ["ab"] (by decide)).2.2

/-- C7: the claim's per-mode base values fail on the code: the
5-character reflection scores 15 (not the claimed base 10), and a text
of exactly 15 characters falls into the long branch and scores 25,
where the claim (base 10 for length at most 15) predicts 10. -/
theorem C7_counterexample :
    ("short").length < 15
    ∧ meta_points "white_room" "short" = 15
    ∧ (15 : ℕ) ≠ 10
    ∧ ("abcdefghijklmno").length = 15
    ∧ meta_points "recursive" "abcdefghijklmno" = 25
    ∧ (25 : ℕ) ≠ 10 := by
  decide

/-- Every per-mode meta-cognition score is 15, 25 or 35. -/
lemma meta_points_cases (mode r : String) :
    meta_points mode r = 15 ∨ meta_points mode r = 25 ∨
    meta_points mode r = 35 := by
  unfold meta_points
  dsimp only
  split_ifs
  · exact Or.inl rfl
  · exact Or.inr (Or.inr rfl)
  · exact Or.inr (Or.inl rfl)

/-- C7 (amended): a reflection shorter than 15 characters scores a flat
15; one of length at least 15 scores 25, plus 10 when the mode-specific
keyword set matches, so each mode scores 15, 25 or 35 (range 15-35, not
0-35); the session total over the 3 selected modes therefore lies
between 45 and the displayed maximum 105. -/
theorem C7_meta_amended :
    ∀ (mode r : String),
      (r.length < 15 → meta_points mode r = 15)
      ∧ (15 ≤ r.length →
          meta_points mode r =
            (if (meta_mode_keywords mode).any (fun w => strIn w (toLowerStr r))
             then 35 else 25))
      ∧ 15 ≤ meta_points mode r
      ∧ meta_points mode r ≤ 35
      ∧ (∀ rounds : List (String × String), rounds.length = 3 →
            45 ≤ meta_session_total rounds
            ∧ meta_session_total rounds ≤ 105) := by
  intro mode r
  refine ⟨?_, ?_, ?_, ?_, ?_⟩
  · intro h; unfold meta_points; rw [if_pos h]
  · intro h
    unfold meta_points
    rw [if_neg (by omega : ¬ r.length < 15)]
  · rcases meta_points_cases mode r with h | h | h <;> omega
  · rcases meta_points_cases mode r with h | h | h <;> omega
  · intro rounds hlen
    rcases rounds with _ | ⟨a, _ | ⟨b, _ | ⟨c, _ | ⟨d, t⟩⟩⟩⟩
    · simp at hlen
    · simp at hlen
    · simp at hlen
    · have Ba : 15 ≤ meta_points a.1 a.2 ∧ meta_points a.1 a.2 ≤ 35 := by
        rcases meta_points_cases a.1 a.2 with h | h | h <;> omega
      have Bb : 15 ≤ meta_points b.1 b.2 ∧ meta_points b.1 b.2 ≤ 35 := by
        rcases meta_points_cases b.1 b.2 with h | h | h <;> omega
      have Bc : 15 ≤ meta_points c.1 c.2 ∧ meta_points c.1 c.2 ≤ 35 := by
        rcases meta_points_cases c.1 c.2 with h | h | h <;> omega
      unfold meta_session_total
      simp only [List.map_cons, List.map_nil, List.sum_cons, List.sum_nil]
      omega
    · simp [List.length_cons] at hlen

/-- C7 witness: the amended theorem applied to the recursive mode and a
short reflection. -/
theorem C7_witness :
    ("short").length < 15 ∧ meta_points "recursive" "short" = 15 :=
  ⟨by decide, (C7_meta_amended "recursive" "short").1 (by decide)⟩

/-- C8: the memory session end never touches world_unlocks for any
input - advance_world_level, which would increment the counter exactly
on success, is dead code in src/app.py (no caller) - so even the
perfect-score session (75 of 75 raw points, percentage 100, above the
70 threshold) leaves world_unlocks at its old value, against the claim
that a qualifying completion increments it. -/
theorem C8_world_advancement :
    (∀ (p : Player) (score trials n : Nat),
        (memory_boost_end p score trials n).world_unlocks = p.world_unlocks)
    ∧ (∀ (p : Player) (w : Nat), w < p.world_unlocks.length →
        (advance_world_level p w true).world_unlocks.getD w 0
            = p.world_unlocks.getD w 0 + 1
        ∧ advance_world_level p w false = p)
    ∧ (75 : ℚ) / ((15 : ℚ) * 5) * 100 = 100
    ∧ (70 : ℚ) < (75 : ℚ) / ((15 : ℚ) * 5) * 100
    ∧ (memory_boost_end default_player 75 15 2).world_unlocks
        = default_player.world_unlocks := by
  have hmbe : ∀ (p : Player) (score trials n : Nat),
      (memory_boost_end p score trials n).world_unlocks = p.world_unlocks := by
    intro p score trials n
    unfold memory_boost_end
    dsimp only
    split_ifs <;>
      simp only [award_badge_world_unlocks, gain_xp_world_unlocks]
  refine ⟨hmbe, ?_, by norm_num, by norm_num, hmbe _ _ _ _⟩
  intro p w hw
  constructor
  · unfold advance_world_level
    rw [if_pos rfl]
    exact getD_set_self _ _ _ hw
  · unfold advance_world_level
    rw [if_neg (by simp)]

/-- C8 witness: advance_world_level on a successful completion would
raise world 0 of the fresh player from 0 to 1. -/
theorem C8_witness :
    (advance_world_level default_player 0 true).world_unlocks.getD 0 0
      = default_player.world_unlocks.getD 0 0 + 1 :=
  (C8_world_advancement.2.1 default_player 0 (by decide)).1
